import Mathlib

/-!
Verification development for the `x_content` scoring-and-comparison engine.

The engine estimates, for a social post, the probability of each of 19
engagement actions, aggregates them into one weighted score, and compares
an original post's signal vector against a candidate rewrite's vector.

Numbers are modelled with `ℚ` (the Python code uses floats; every literal
appearing in the code is exactly representable as a rational, and Python's
`round` half-to-even at one or two decimals is modelled exactly by
`pyRound`).  Python dicts keyed by the 19 signal ids are modelled as total
functions `Action → ℚ`; partial externally-supplied dicts are association
lists (see `Variation`).
-/

namespace XContent

/-- Python's banker's rounding of a rational to the nearest integer
(ties go to the even integer), as used by `round(x)` on exact values. -/
def pyRoundInt (q : ℚ) : ℤ :=
  if q - ⌊q⌋ < 1/2 then ⌊q⌋
  else if 1/2 < q - ⌊q⌋ then ⌊q⌋ + 1
  else if ⌊q⌋ % 2 = 0 then ⌊q⌋ else ⌊q⌋ + 1

/-- Python's `round(q, nd)`: round half-to-even at `nd` decimal places. -/
def pyRound (q : ℚ) (nd : ℕ) : ℚ :=
  (pyRoundInt (q * 10 ^ nd) : ℚ) / 10 ^ nd

/-- The 19 engagement-action signal ids of the catalog (key strings of the
Python dicts, e.g. `"favorite_score"`). -/
inductive Action where
  | favorite_score
  | reply_score
  | repost_score
  | photo_expand_score
  | click_score
  | profile_click_score
  | vqv_score
  | share_score
  | share_via_dm_score
  | share_via_copy_link_score
  | dwell_score
  | quote_score
  | quoted_click_score
  | follow_author_score
  | dwell_time
  | not_interested_score
  | block_author_score
  | mute_author_score
  | report_score
deriving DecidableEq, Repr

/-- Modelled from the spec: the module `x_content/algorithm.py` (which
defines `ACTIONS`) is not part of the provided sources; the spec's Signal
Catalog lists these 19 ids in this order. -/
def ACTIONS : List Action :=
  [.favorite_score, .reply_score, .repost_score, .photo_expand_score,
   .click_score, .profile_click_score, .vqv_score, .share_score,
   .share_via_dm_score, .share_via_copy_link_score, .dwell_score,
   .quote_score, .quoted_click_score, .follow_author_score, .dwell_time,
   .not_interested_score, .block_author_score, .mute_author_score,
   .report_score]

/-- Modelled from the spec: `ACTION_WEIGHTS` lives in the absent
`x_content/algorithm.py`; the weights are the spec's catalog table (also
corroborated verbatim by the weight list embedded in
`x_content/prompts.py`). -/
def ACTION_WEIGHTS : Action → ℚ
  | .favorite_score => 1.0
  | .reply_score => 27.0
  | .repost_score => 10.0
  | .photo_expand_score => 0.3
  | .click_score => 0.3
  | .profile_click_score => 2.0
  | .vqv_score => 0.2
  | .share_score => 1.0
  | .share_via_dm_score => 100.0
  | .share_via_copy_link_score => 5.0
  | .dwell_score => 2.0
  | .quote_score => 40.0
  | .quoted_click_score => 0.5
  | .follow_author_score => 10.0
  | .dwell_time => 0.8
  | .not_interested_score => -74.0
  | .block_author_score => -371.0
  | .mute_author_score => -74.0
  | .report_score => -9209.0

/-- Modelled from the spec: `NEGATIVE_ACTIONS` lives in the absent
`x_content/algorithm.py`; the spec's catalog marks exactly these four ids
with negative polarity. -/
def NEGATIVE_ACTIONS (a : Action) : Bool :=
  match a with
  | .not_interested_score => true
  | .block_author_score => true
  | .mute_author_score => true
  | .report_score => true
  | _ => false

/-- Modelled from the spec: `compute_weighted_score` lives in the absent
`x_content/algorithm.py`.  Spec §4.3: `combined = Σ probability[id] ×
weight[id]` over all 19 catalog entries; if `combined < 0` the final score
is `combined × 2`, otherwise `combined`; the media flag is reserved and
unused in the reduction; no further normalization. -/
def compute_weighted_score (signals : Action → ℚ) (_has_media : Bool) : ℚ :=
  let combined := (ACTIONS.map (fun a => signals a * ACTION_WEIGHTS a)).sum
  if combined < 0 then combined * 2 else combined

/-- `scorer._clamp` (the Python defaults `lo=0.0, hi=1.0` are used at every
call site). -/
def _clamp (v : ℚ) : ℚ := max 0 (min 1 v)

/-- The `StructuralFeatures` record returned by `analyzer.analyze`. -/
structure Analysis where
  char_count : ℕ
  char_utilization : ℚ
  word_count : ℕ
  line_count : ℕ
  first_line : String
  has_hook : Bool
  has_question : Bool
  question_count : ℕ
  hashtag_count : ℕ
  hashtags : List String
  has_url : Bool
  has_media : Bool
  lang : String
  has_cta : Bool
  cta_count : ℕ
  power_word_count : ℕ
  power_words_found : List String
  has_numbers : Bool
  has_list_format : Bool
  emoji_count : ℕ
deriving DecidableEq, Repr

/-- `scorer.score_tweet`: the heuristic 19-signal estimator.  Each guarded
increment mirrors one `if` of the Python function; the result dict is the
function on the 19 ids. -/
def score_tweet (a : Analysis) : Action → ℚ
  | .favorite_score =>
    let base := (0.20 : ℚ)
    let base := if a.power_word_count > 0 then
      base + min ((a.power_word_count : ℚ) * 0.08) 0.25 else base
    let base := if a.has_question then base + 0.05 else base
    let base := if a.emoji_count > 0 then base + 0.05 else base
    let base := if a.char_utilization > 50 then base + 0.10 else base
    let base := if a.has_media then base + 0.10 else base
    _clamp base
  | .reply_score =>
    let base := (0.10 : ℚ)
    let base := if a.has_question then
      base + 0.15 * (min a.question_count 3 : ℕ) else base
    let base := if a.has_cta then base + 0.10 else base
    let base := if a.power_word_count > 0 then base + 0.08 else base
    let base := if a.line_count ≥ 3 then base + 0.05 else base
    _clamp base
  | .repost_score =>
    let base := (0.15 : ℚ)
    let base := if a.has_numbers then base + 0.12 else base
    let base := if a.power_word_count ≥ 2 then base + 0.10 else base
    let base := if 100 < a.char_count ∧ a.char_count < 200 then
      base + 0.08 else base
    let base := if a.has_list_format then base + 0.05 else base
    _clamp base
  | .photo_expand_score =>
    let base := (0.05 : ℚ)
    let base := if a.has_media then base + 0.50 else base
    _clamp base
  | .click_score =>
    let base := (0.05 : ℚ)
    let base := if a.has_url then base + 0.35 else base
    let base := if a.power_word_count > 0 ∧ a.has_url then
      base + 0.10 else base
    _clamp base
  | .profile_click_score =>
    let base := (0.10 : ℚ)
    let base := if a.power_word_count ≥ 2 then base + 0.10 else base
    let base := if a.has_numbers then base + 0.08 else base
    let base := if a.char_utilization > 60 then base + 0.05 else base
    _clamp base
  | .vqv_score =>
    let base := (0.02 : ℚ)
    let base := if a.has_media then base + 0.15 else base
    _clamp base
  | .share_score =>
    let base := (0.10 : ℚ)
    let base := if a.has_list_format then base + 0.15 else base
    let base := if a.has_numbers then base + 0.10 else base
    let base := if a.power_word_count > 0 then base + 0.05 else base
    let base := if a.char_utilization > 50 then base + 0.05 else base
    _clamp base
  | .share_via_dm_score =>
    let base := (0.05 : ℚ)
    let base := if a.power_word_count ≥ 2 then base + 0.12 else base
    let base := if a.has_numbers then base + 0.08 else base
    let base := if a.has_question ∧ a.power_word_count > 0 then
      base + 0.10 else base
    let base := if a.char_utilization > 60 then base + 0.05 else base
    _clamp base
  | .share_via_copy_link_score =>
    let base := (0.05 : ℚ)
    let base := if a.has_list_format then base + 0.12 else base
    let base := if a.has_numbers then base + 0.08 else base
    let base := if a.char_utilization > 70 then base + 0.05 else base
    _clamp base
  | .dwell_score =>
    let base := (0.15 : ℚ)
    let base := if a.has_hook then base + 0.15 else base
    let base := if a.line_count ≥ 3 then base + 0.10 else base
    let base := if a.char_utilization > 50 then base + 0.10 else base
    _clamp base
  | .quote_score =>
    let base := (0.08 : ℚ)
    let base := if a.power_word_count ≥ 2 then base + 0.12 else base
    let base := if a.has_numbers then base + 0.08 else base
    let base := if a.has_question then base + 0.05 else base
    _clamp base
  | .quoted_click_score => 0.05
  | .follow_author_score =>
    let base := (0.08 : ℚ)
    let base := if a.has_numbers then base + 0.08 else base
    let base := if a.power_word_count ≥ 2 then base + 0.08 else base
    let base := if a.char_utilization > 60 then base + 0.05 else base
    _clamp base
  | .not_interested_score =>
    let base := (0.10 : ℚ)
    let base := if a.hashtag_count > 3 then base + 0.15 else base
    let base := if a.char_utilization < 15 then base + 0.10 else base
    let base := if a.cta_count > 2 then base + 0.08 else base
    _clamp base
  | .block_author_score =>
    let base := (0.03 : ℚ)
    let base := if a.hashtag_count > 5 then base + 0.05 else base
    _clamp base
  | .mute_author_score =>
    let base := (0.05 : ℚ)
    let base := if a.hashtag_count > 3 then base + 0.05 else base
    _clamp base
  | .report_score => 0.02
  | .dwell_time =>
    let base := (0.15 : ℚ)
    let base := if a.line_count ≥ 4 then base + 0.15 else base
    let base := if a.char_utilization > 60 then base + 0.15 else base
    let base := if a.has_hook then base + 0.10 else base
    let base := if a.has_list_format then base + 0.10 else base
    _clamp base

/-- One per-signal entry of the delta report produced by
`scorer.compute_delta`. -/
structure DeltaEntry where
  original : ℚ
  optimized : ℚ
  delta_pct : ℚ
  direction : String
  is_new : Bool
deriving DecidableEq, Repr

/-- The unrounded `delta_pct` computed inside `scorer.compute_delta`
before `round(delta_pct, 1)` is applied to the stored value (the
`direction` label is derived from this unrounded value). -/
def rawDelta (orig opt : ℚ) : ℚ :=
  if orig = 0 ∧ opt > 0 then 100
  else if orig = 0 then 0
  else ((opt - orig) / orig) * 100

/-- `scorer.compute_delta`, one signal at a time (the Python function
builds the dict by iterating `ACTIONS`; each entry depends only on the two
probabilities for that action and the action's polarity). -/
def compute_delta (original optimized : Action → ℚ) (action : Action) :
    DeltaEntry :=
  let orig := original action
  let opt := optimized action
  let isNew : Bool := decide (orig = 0 ∧ opt > 0)
  let delta_pct := rawDelta orig opt
  let direction :=
    if NEGATIVE_ACTIONS action then
      if delta_pct < 0 then "improved" else "worse"
    else
      if delta_pct > 0 then "improved" else "worse"
  ⟨orig, opt, pyRound delta_pct 1, direction, isNew⟩

/-- Result of `scorer.full_score_report`. -/
structure ScoreReport where
  signals : Action → ℚ
  weighted_score : ℚ

/-- `scorer.full_score_report`. -/
def full_score_report (analysis : Analysis) (has_media : Bool) :
    ScoreReport :=
  let signals := score_tweet analysis
  let weighted_score := compute_weighted_score signals has_media
  ⟨signals, pyRound weighted_score 2⟩

/-- Result of `scorer.comparison_report`. -/
structure ComparisonReport where
  original : ScoreReport
  optimized_signals : Action → ℚ
  optimized_weighted_score : ℚ
  delta : Action → DeltaEntry
  weighted_score_original : ℚ
  weighted_score_optimized : ℚ
  weighted_score_change : ℚ

/-- `scorer.comparison_report`. -/
def comparison_report (original_analysis : Analysis)
    (optimized_scores : Action → ℚ) (has_media : Bool) : ComparisonReport :=
  let orig_report := full_score_report original_analysis has_media
  let opt_weighted := compute_weighted_score optimized_scores has_media
  let delta := compute_delta orig_report.signals optimized_scores
  ⟨orig_report, optimized_scores, pyRound opt_weighted 2, delta,
   orig_report.weighted_score, pyRound opt_weighted 2,
   pyRound (opt_weighted - orig_report.weighted_score) 2⟩

/-! ## Externally-supplied variations and `optimizer.validate_variation` -/

/-- A JSON score value in an externally supplied variation: numeric
(Python `int`/`float`) or non-numeric (anything failing
`isinstance(val, (int, float))`, represented by its display text). -/
inductive PyVal where
  | num : ℚ → PyVal
  | other : String → PyVal
deriving DecidableEq, Repr

/-- An externally supplied variation dict: optional `"tweet"` text and an
optional `"scores"` dict, the latter modelled as an association list over
catalog ids (Python dict keys are unique; lookup takes the first match). -/
structure Variation where
  tweet : Option String
  scores : Option (List (Action × PyVal))

/-- Dict lookup on the `"scores"` association list. -/
def scoresLookup : List (Action × PyVal) → Action → Option PyVal
  | [], _ => none
  | p :: t, a => if p.1 = a then some p.2 else scoresLookup t a

/-- One warning emitted by `optimizer.validate_variation` (the Python code
emits each as a formatted string; the constructor arguments carry exactly
the data interpolated into that string). -/
inductive Warning where
  | missingTweet
  | tweetTooLong (max_chars len : ℕ)
  | missingScores (ids : List Action)
  | nonNumericScore (action : Action) (val : PyVal)
  | scoreOutOfRange (action : Action) (val : ℚ)
deriving DecidableEq, Repr

/-- `optimizer.validate_variation`: collects non-fatal warnings for a
single variation — missing/overlong tweet text, missing catalog ids
(one grouped warning listing them all), and per-value non-numeric or
out-of-range scores. -/
def validate_variation (variation : Variation) (max_chars : ℕ) :
    List Warning :=
  let tweet := variation.tweet.getD ""
  let w1 : List Warning :=
    if tweet = "" then [.missingTweet]
    else if tweet.length > max_chars then
      [.tweetTooLong max_chars tweet.length]
    else []
  let scores := variation.scores.getD []
  let missing := ACTIONS.filter (fun a => (scoresLookup scores a).isNone)
  let w2 : List Warning :=
    if missing.isEmpty then [] else [.missingScores missing]
  let w3 : List Warning := scores.filterMap (fun p =>
    match p.2 with
    | .other s => some (.nonNumericScore p.1 (.other s))
    | .num q =>
      if ¬(0 ≤ q ∧ q ≤ 1) then some (.scoreOutOfRange p.1 q) else none)
  w1 ++ w2 ++ w3

/-- The score-defaulting loop in `optimizer.optimize` (and its siblings):
`for action in ACTIONS: var["scores"].setdefault(action, 0.0)` — every
catalog id missing from the dict is added with value `0.0`. -/
def fillScores (scores : List (Action × PyVal)) : List (Action × PyVal) :=
  scores ++
    (ACTIONS.filter (fun a => (scoresLookup scores a).isNone)).map
      (fun a => (a, .num 0))

/-! ## `analyzer.py` — structural feature extraction

The regex fragments of `analyzer.py` are embedded as explicit scanners.
Python's `re` is Unicode-aware and `str.lower`/`str.strip` fold and strip
beyond ASCII; the embeddings below use the ASCII fragments
(`Char.isAlphanum`, `Char.toLower`, `Char.isWhitespace`), which agree with
Python on the ASCII texts evaluated in the theorems below.

The source file is mojibake-encoded (UTF-8 bytes decoded as cp1252 and
re-encoded): its non-ASCII string literals are garbled multi-character
sequences, and the embedding reproduces those exact characters. -/

/-- Python's `str.strip()` (ASCII-whitespace fragment). -/
def pyTrim (l : List Char) : List Char :=
  ((l.dropWhile Char.isWhitespace).reverse.dropWhile Char.isWhitespace).reverse

/-- Python's `str.split(sep)` for a one-character separator (as in
`text.split("\n")`): splitting the empty string yields `[""]`. -/
def splitOnChar (sep : Char) : List Char → List (List Char)
  | [] => [[]]
  | c :: rest =>
    let r := splitOnChar sep rest
    if c = sep then [] :: r
    else
      match r with
      | [] => [[c]]
      | h :: t => (c :: h) :: t

/-- Number of maximal non-whitespace runs: `len(text.split())`.  The
`inWord` flag records whether the previous character was part of a
word. -/
def countWordsAux : List Char → Bool → ℕ
  | [], _ => 0
  | c :: rest, inWord =>
    if c.isWhitespace then countWordsAux rest false
    else (if inWord then 0 else 1) + countWordsAux rest true

/-- Regex `\w`: letters, digits, underscore (ASCII fragment). -/
def isWordChar (c : Char) : Bool := c.isAlphanum || c = '_'

def isWordOpt : Option Char → Bool
  | none => false
  | some c => isWordChar c

/-- Does regex `\b<pat>\b` (for a literal `pat`) match at the current
position of the text, `prev` being the character immediately before it?
A `\b` holds between two positions iff exactly one side is a word
character. -/
def wordMatchHere (pat : List Char) (prev : Option Char)
    (s : List Char) : Bool :=
  decide (pat <+: s) &&
    (isWordOpt prev != isWordOpt pat.head?) &&
    (isWordOpt pat.getLast? != isWordOpt ((s.drop pat.length).head?))

def wordSearchAux (pat : List Char) (prev : Option Char) :
    List Char → Bool
  | [] => wordMatchHere pat prev []
  | c :: rest =>
    wordMatchHere pat prev (c :: rest) || wordSearchAux pat (some c) rest

/-- `re.search(rf"\b{pat}\b", s)` for a literal word/phrase `pat`. -/
def containsWholeWord (s pat : List Char) : Bool :=
  wordSearchAux pat none s

/-- Python's substring test `pat in s`. -/
def containsSubstr (s pat : List Char) : Bool :=
  decide (pat <:+: s)

/-- Python's `s.endswith(suffix)`. -/
def pyEndsWith (s suffix : List Char) : Bool :=
  decide (suffix <:+ s)

/-- `re.findall(r"#\w+", text)`: maximal `#`-word matches, left to right.
`cur = some w` while scanning a match whose word part so far is `w`
(reversed, possibly still empty just after the `#`). -/
def scanHashtagsAux (cur : Option (List Char)) : List Char → List String
  | [] =>
    match cur with
    | some w => if w.isEmpty then [] else [('#' :: w.reverse).asString]
    | none => []
  | c :: rest =>
    match cur with
    | some w =>
      if isWordChar c then scanHashtagsAux (some (c :: w)) rest
      else
        (if w.isEmpty then [] else [('#' :: w.reverse).asString]) ++
          (if c = '#' then scanHashtagsAux (some []) rest
           else scanHashtagsAux none rest)
    | none =>
      if c = '#' then scanHashtagsAux (some []) rest
      else scanHashtagsAux none rest

def scanHashtags (l : List Char) : List String := scanHashtagsAux none l

def nonSpaceHead : List Char → Bool
  | [] => false
  | c :: _ => !c.isWhitespace

/-- Does `https?://\S+` match at the head of `l`? -/
def urlAtHead (l : List Char) : Bool :=
  (decide ("http://".toList <+: l) && nonSpaceHead (l.drop 7)) ||
  (decide ("https://".toList <+: l) && nonSpaceHead (l.drop 8))

/-- `re.search(r"https?://\S+", text)`. -/
def urlSearch : List Char → Bool
  | [] => false
  | c :: rest => urlAtHead (c :: rest) || urlSearch rest

/-- The exact characters of the `analyzer._TR_CHARS` set literal (mojibake
of the intended Turkish diacritics). -/
def trChars : List Char :=
  ['Ã', '§', 'Ä', 'Ÿ', '±', '¶', 'Å',
   '¼', '‡', 'ž', '°', '–', 'œ']

/-- The Turkish stop-word list of `detect_language` (exact source
characters). -/
def trWords : List String :=
  ["bir", "bu", "ve", "ile", "iÃ§in", "olan", "var",
   "gibi", "ama", "Ã§ok", "daha", "ben", "sen", "biz",
   "deÄŸil", "olarak", "kadar", "sonra", "Ã¶nce",
   "ÅŸey"]

/-- `analyzer.detect_language` (on the character list of the text). -/
def detect_language (chars : List Char) : String :=
  if chars.any (fun c => trChars.contains c) then "tr"
  else
    let lower := chars.map Char.toLower
    let trCount :=
      (trWords.filter (fun w => containsWholeWord lower w.toList)).length
    if trCount ≥ 3 then "tr" else "en"

/-- `analyzer._CTA_PATTERNS_EN`: each pattern is `\b<word>\b` for these
literal words/phrases. -/
def ctaPatternsEn : List String :=
  ["follow", "retweet", "share", "like",
   "check out", "click", "subscribe", "join",
   "save this", "bookmark", "tag", "drop",
   "comment", "try", "read"]

/-- `analyzer._CTA_PATTERNS_TR` (exact source characters). -/
def ctaPatternsTr : List String :=
  ["takip", "paylaÅŸ", "beÄŸen", "bak",
   "tÄ±kla", "abone", "katÄ±l", "kaydet",
   "yorum", "dene", "oku", "yaz"]

/-- `analyzer._POWER_WORDS_EN`. -/
def powerWordsEn : List String :=
  ["secret", "shocking", "truth", "mistake", "wrong", "never",
   "always", "must", "stop", "warning", "proven", "free",
   "exclusive", "breaking", "urgent", "finally", "revealed",
   "unpopular opinion", "hot take", "thread", "lesson"]

/-- `analyzer._POWER_WORDS_TR` (exact source characters). -/
def powerWordsTr : List String :=
  ["sÄ±r", "ÅŸok", "gerÃ§ek", "hata",
   "yanlÄ±ÅŸ", "asla", "her zaman", "mutlaka",
   "dur", "uyarÄ±", "kanÄ±tlanmÄ±ÅŸ",
   "Ã¼cretsiz", "Ã¶zel", "son dakika", "acil",
   "sonunda"]

/-- The `hook_indicators` list of `analyze` (the last three entries are
the mojibake renderings of an em-dash and two pictographs). -/
def hookIndicators : List String :=
  [":", "?", "!", "...", "â€”",
   "ðŸ‘‡", "ðŸ§µ"]

/-- The characters of the list-marker regex class
`[\d•\-\*►▸→]` as it appears (mojibake) in the source, digits aside. -/
def listMarkChars : List Char :=
  ['â', '€', '¢', '-', '*', '–', 'º', '¸',
   '†', '’']

/-- `re.match(r"^\s*[\d...]\s*", l)`: after optional leading whitespace the
line starts with a digit or a marker character (the trailing `\s*`
matches the empty string). -/
def isListLine (l : List Char) : Bool :=
  match l.dropWhile Char.isWhitespace with
  | [] => false
  | c :: _ => c.isDigit || listMarkChars.contains c

/-- Membership in the Unicode ranges of the emoji-counting regex. -/
def isEmojiChar (c : Char) : Bool :=
  decide ((0x1F300 ≤ c.toNat ∧ c.toNat ≤ 0x1FAFF) ∨
    (0x1FB00 ≤ c.toNat ∧ c.toNat ≤ 0x1FBFF) ∨
    (0x2600 ≤ c.toNat ∧ c.toNat ≤ 0x27BF) ∨
    (0xFE00 ≤ c.toNat ∧ c.toNat ≤ 0xFEFF))

/-- `analyzer.analyze`.  The configured maximum character count (read in
Python from the cached config as
`config.get("optimization", {}).get("max_chars", 280)`) is passed as the
explicit argument `maxChars`. -/
def analyze (text : String) (has_media : Bool) (maxChars : ℕ) : Analysis :=
  let chars := text.toList
  let lines := (splitOnChar '\n' (pyTrim chars)).filter
    (fun l => pyTrim l ≠ [])
  let first_line := pyTrim (lines.headD [])
  let char_count := chars.length
  let word_count := countWordsAux chars false
  let hashtags := scanHashtags chars
  let has_url := urlSearch chars
  let questions := chars.countP (fun c => c = '?')
  let lang := detect_language chars
  let has_hook :=
    hookIndicators.any (fun h => pyEndsWith first_line h.toList) ||
      decide (first_line.length < 60)
  let lower_text := chars.map Char.toLower
  let cta_patterns := if lang = "tr" then ctaPatternsTr else ctaPatternsEn
  let cta_matches :=
    cta_patterns.filter (fun p => containsWholeWord lower_text p.toList)
  let power_words := if lang = "tr" then powerWordsTr else powerWordsEn
  let found_power :=
    power_words.filter (fun w => containsSubstr lower_text w.toList)
  let has_numbers := chars.any Char.isDigit
  let list_lines := lines.filter isListLine
  let has_list := decide (list_lines.length ≥ 2)
  let emoji_count := chars.countP isEmojiChar
  ⟨char_count,
   pyRound ((char_count : ℚ) / (maxChars : ℚ) * 100) 1,
   word_count,
   lines.length,
   first_line.asString,
   has_hook,
   decide (questions > 0),
   questions,
   hashtags.length,
   hashtags,
   has_url,
   has_media,
   lang,
   decide (cta_matches.length > 0),
   cta_matches.length,
   found_power.length,
   found_power,
   has_numbers,
   has_list,
   emoji_count⟩

/-- The end-to-end example text of the spec's test list. -/
def c6Text : String := "Is AI going to replace your job? Thread 🧵"

/-! ## Helper lemmas -/

theorem pyRoundInt_of_fract_lt (q : ℚ) (f : ℤ) (h1 : (f:ℚ) ≤ q)
    (h2 : q - f < 1/2) : pyRoundInt q = f := by
  have hf : ⌊q⌋ = f := by
    rw [Int.floor_eq_iff]
    exact ⟨h1, by linarith⟩
  simp only [pyRoundInt, hf]
  rw [if_pos h2]

theorem pyRoundInt_of_fract_gt (q : ℚ) (f : ℤ) (h1 : (f:ℚ) ≤ q)
    (h3 : q < (f:ℚ) + 1) (h2 : 1/2 < q - f) : pyRoundInt q = f + 1 := by
  have hf : ⌊q⌋ = f := by
    rw [Int.floor_eq_iff]
    exact ⟨h1, by linarith⟩
  simp only [pyRoundInt, hf]
  rw [if_neg (by linarith), if_pos h2]

theorem pyRound_eq_of_fract_lt (q r : ℚ) (nd : ℕ) (f : ℤ)
    (h1 : (f:ℚ) ≤ q * 10 ^ nd) (h2 : q * 10 ^ nd - f < 1/2)
    (hr : (f : ℚ) / 10 ^ nd = r) : pyRound q nd = r := by
  simp only [pyRound]
  rw [pyRoundInt_of_fract_lt _ f h1 h2, hr]

theorem pyRound_eq_of_fract_gt (q r : ℚ) (nd : ℕ) (f : ℤ)
    (h1 : (f:ℚ) ≤ q * 10 ^ nd) (h3 : q * 10 ^ nd < (f:ℚ) + 1)
    (h2 : 1/2 < q * 10 ^ nd - f) (hr : ((f : ℚ) + 1) / 10 ^ nd = r) :
    pyRound q nd = r := by
  simp only [pyRound]
  rw [pyRoundInt_of_fract_gt _ f h1 h3 h2]
  push_cast
  rw [hr]

theorem pyRound_zero (nd : ℕ) : pyRound 0 nd = 0 :=
  pyRound_eq_of_fract_lt 0 0 nd 0 (by norm_num) (by norm_num) (by norm_num)

theorem clamp_mem (v : ℚ) : 0 ≤ _clamp v ∧ _clamp v ≤ 1 := by
  unfold _clamp
  exact ⟨le_max_left 0 _, max_le (by norm_num) (min_le_left 1 v)⟩

theorem mem_ACTIONS (a : Action) : a ∈ ACTIONS := by
  cases a <;> simp [ACTIONS]

theorem rawDelta_of_ne_zero (ov cv : ℚ) (h : ov ≠ 0) :
    rawDelta ov cv = ((cv - ov) / ov) * 100 := by
  simp only [rawDelta]
  rw [if_neg (by rintro ⟨h1, -⟩; exact h h1), if_neg h]

theorem scoresLookup_append_of_none (l₁ l₂ : List (Action × PyVal))
    (a : Action) (h : scoresLookup l₁ a = none) :
    scoresLookup (l₁ ++ l₂) a = scoresLookup l₂ a := by
  induction l₁ with
  | nil => simp [scoresLookup]
  | cons p t ih =>
    by_cases hp : p.1 = a
    · simp [scoresLookup, hp] at h
    · simp only [scoresLookup, List.cons_append, if_neg hp] at h ⊢
      exact ih h

theorem scoresLookup_map_const (l : List Action) (a : Action) (v : PyVal)
    (h : a ∈ l) :
    scoresLookup (l.map (fun x => (x, v))) a = some v := by
  induction l with
  | nil => cases h
  | cons b t ih =>
    simp only [List.map_cons, scoresLookup]
    by_cases hb : b = a
    · rw [if_pos hb]
    · rw [if_neg hb]
      cases h with
      | head => exact absurd rfl hb
      | tail _ ht => exact ih ht

theorem c6_reply_eval :
    score_tweet (analyze c6Text false 280) Action.reply_score = 33/100 := by
  have h1 : (analyze c6Text false 280).has_question = true := by decide
  have h2 : (analyze c6Text false 280).question_count = 1 := by decide
  have h3 : (analyze c6Text false 280).has_cta = false := by decide
  have h4 : (analyze c6Text false 280).power_word_count = 1 := by decide
  have h5 : (analyze c6Text false 280).line_count = 1 := by decide
  simp only [score_tweet, h1, h2, h3, h4, h5]
  norm_num [_clamp]

/-! ## Claim theorems -/

/-- Claim C1: for every SignalVector `v`, the aggregator returns
`combined = Σ v[id] × weight[id]` over the 19 catalog ids with the
spec-table weights; if `combined < 0` the returned score is exactly
`combined × 2`, otherwise exactly `combined`, with no further
normalization. -/
theorem weighted_score_formula (v : Action → ℚ) (hm : Bool) (combined : ℚ)
    (hc : combined =
      v .favorite_score * 1.0 + v .reply_score * 27.0 +
      v .repost_score * 10.0 + v .photo_expand_score * 0.3 +
      v .click_score * 0.3 + v .profile_click_score * 2.0 +
      v .vqv_score * 0.2 + v .share_score * 1.0 +
      v .share_via_dm_score * 100.0 + v .share_via_copy_link_score * 5.0 +
      v .dwell_score * 2.0 + v .quote_score * 40.0 +
      v .quoted_click_score * 0.5 + v .follow_author_score * 10.0 +
      v .dwell_time * 0.8 + v .not_interested_score * (-74.0) +
      v .block_author_score * (-371.0) + v .mute_author_score * (-74.0) +
      v .report_score * (-9209.0)) :
    (combined < 0 → compute_weighted_score v hm = combined * 2) ∧
    (0 ≤ combined → compute_weighted_score v hm = combined) := by
  have hsum : (ACTIONS.map (fun a => v a * ACTION_WEIGHTS a)).sum
      = combined := by
    simp [ACTIONS, ACTION_WEIGHTS, hc]
    ring
  constructor <;> intro h
  · simp only [compute_weighted_score, hsum]
    rw [if_pos h]
  · simp only [compute_weighted_score, hsum]
    rw [if_neg (by linarith)]

/-- Witness for C1: the spec's own test vector (`report = 0.01`, all
other signals `0`) has combined weighted sum `-92.09` and the aggregator
returns exactly twice that. -/
theorem weighted_score_formula_witness :
    compute_weighted_score
        (fun a => if a = Action.report_score then 0.01 else 0) false
      = (-9209/100 : ℚ) * 2 :=
  (weighted_score_formula _ false (-9209/100) (by simp; norm_num)).1
    (by norm_num)

/-- Claim C2: every one of the 19 values produced by the heuristic signal
estimator lies in the closed interval `[0, 1]`, for every feature
record. -/
theorem estimator_scores_in_unit_interval (a : Analysis) (act : Action) :
    0 ≤ score_tweet a act ∧ score_tweet a act ≤ 1 := by
  cases act
  case quoted_click_score =>
    exact ⟨by norm_num [score_tweet], by norm_num [score_tweet]⟩
  case report_score =>
    exact ⟨by norm_num [score_tweet], by norm_num [score_tweet]⟩
  all_goals simp only [score_tweet]
  all_goals exact clamp_mem _

/-- Counterexample for C3: at `orig = 0.3`, `cand = 0.4` the reported
`delta_pct` is `33.3` (rounded to one decimal), not the exact
`(cand - orig) / orig × 100 = 100/3`. -/
theorem delta_exact_formula_counterexample :
    (compute_delta (fun _ => 0.3) (fun _ => 0.4)
        Action.favorite_score).delta_pct ≠ ((0.4 - 0.3) / 0.3) * 100 := by
  have h1 : rawDelta (0.3:ℚ) 0.4 = 100/3 := by
    simp only [rawDelta]
    norm_num
  have h2 : (compute_delta (fun _ => (0.3:ℚ)) (fun _ => 0.4)
      Action.favorite_score).delta_pct = 333/10 := by
    simp only [compute_delta, h1]
    exact pyRound_eq_of_fract_lt _ _ _ 333 (by norm_num) (by norm_num)
      (by norm_num)
  rw [h2]
  norm_num

/-- Claim C3 (amended): the reported `delta_pct` obeys the three-branch
rule with the third branch rounded to one decimal place:
`orig = 0 ∧ cand > 0` gives `100.0` and `is_new`; `orig = 0 ∧ cand = 0`
gives `0.0` and not `is_new`; otherwise
`round((cand - orig) / orig × 100, 1)` and not `is_new`. -/
theorem delta_three_branch_rounded (ov cv : Action → ℚ) (a : Action) :
    (ov a = 0 → 0 < cv a →
      (compute_delta ov cv a).delta_pct = 100 ∧
      (compute_delta ov cv a).is_new = true) ∧
    (ov a = 0 → cv a = 0 →
      (compute_delta ov cv a).delta_pct = 0 ∧
      (compute_delta ov cv a).is_new = false) ∧
    (ov a ≠ 0 →
      (compute_delta ov cv a).delta_pct
          = pyRound (((cv a - ov a) / ov a) * 100) 1 ∧
      (compute_delta ov cv a).is_new = false) := by
  refine ⟨fun h0 h1 => ⟨?_, ?_⟩, fun h0 h1 => ⟨?_, ?_⟩,
    fun h0 => ⟨?_, ?_⟩⟩
  · simp only [compute_delta, rawDelta]
    rw [if_pos ⟨h0, h1⟩]
    exact pyRound_eq_of_fract_lt _ _ _ 1000 (by norm_num) (by norm_num)
      (by norm_num)
  · simp [compute_delta, h0, h1]
  · simp only [compute_delta, rawDelta]
    rw [if_neg (by rintro ⟨-, h2⟩; rw [h1] at h2; exact lt_irrefl 0 h2),
      if_pos h0]
    exact pyRound_zero 1
  · simp [compute_delta, h0, h1]
  · simp only [compute_delta, rawDelta_of_ne_zero _ _ h0]
  · simp [compute_delta, h0]

/-- Witness for the amended C3: at `orig = 0.3`, `cand = 0.4` the third
branch applies and the reported delta is the rounded relative change. -/
theorem delta_three_branch_rounded_witness :
    (compute_delta (fun _ => 0.3) (fun _ => 0.4)
        Action.favorite_score).delta_pct
      = pyRound (((0.4 - 0.3) / 0.3) * 100) 1 :=
  ((delta_three_branch_rounded _ _ Action.favorite_score).2.2
    (by norm_num)).1

/-- Claim C4: the direction label is `"improved"` iff the (unrounded)
delta is positive for positive-polarity signals, and iff it is negative
for negative-polarity signals; a delta of exactly `0` is always labelled
`"worse"`, never `"improved"`. -/
theorem direction_polarity (ov cv : Action → ℚ) (a : Action) :
    (NEGATIVE_ACTIONS a = true →
      ((compute_delta ov cv a).direction = "improved" ↔
        rawDelta (ov a) (cv a) < 0)) ∧
    (NEGATIVE_ACTIONS a = false →
      ((compute_delta ov cv a).direction = "improved" ↔
        0 < rawDelta (ov a) (cv a))) ∧
    (rawDelta (ov a) (cv a) = 0 →
      (compute_delta ov cv a).direction = "worse") := by
  refine ⟨fun hneg => ?_, fun hpos => ?_, fun h0 => ?_⟩
  · by_cases hlt : rawDelta (ov a) (cv a) < 0
    · simp [compute_delta, hneg, hlt]
    · simp [compute_delta, hneg, hlt]
  · by_cases hgt : 0 < rawDelta (ov a) (cv a)
    · simp [compute_delta, hpos, hgt]
    · simp [compute_delta, hpos, hgt]
  · cases hn : NEGATIVE_ACTIONS a <;> simp [compute_delta, hn, h0]

/-- Witness for C4: the spec's own example — a negative-polarity signal
dropping from `0.20` to `0.05` is reported as `"improved"`. -/
theorem direction_polarity_witness :
    (compute_delta (fun _ => 0.20) (fun _ => 0.05)
        Action.report_score).direction = "improved" :=
  ((direction_polarity _ _ Action.report_score).1 rfl).mpr
    (by rw [rawDelta_of_ne_zero _ _ (by norm_num)]; norm_num)

/-- Claim C5: comparing a feature record against its own heuristic
estimate yields, for every one of the 19 signals, `delta_pct = 0.0` and
`is_new = false`. -/
theorem self_comparison_zero_delta (analysis : Analysis) (hm : Bool)
    (act : Action) :
    ((comparison_report analysis (score_tweet analysis) hm).delta
        act).delta_pct = 0 ∧
    ((comparison_report analysis (score_tweet analysis) hm).delta
        act).is_new = false := by
  have hd : (comparison_report analysis (score_tweet analysis) hm).delta act
      = compute_delta (score_tweet analysis) (score_tweet analysis) act :=
    rfl
  rw [hd]
  by_cases h : score_tweet analysis act = 0
  · constructor
    · simp only [compute_delta, rawDelta]
      rw [if_neg (by rintro ⟨-, h2⟩; rw [h] at h2; exact lt_irrefl 0 h2),
        if_pos h]
      exact pyRound_zero 1
    · simp [compute_delta, h]
  · constructor
    · simp only [compute_delta, rawDelta_of_ne_zero _ _ h]
      simp [sub_self, pyRound_zero]
    · simp [compute_delta, h]

/-- Counterexample for C6: on the spec's end-to-end example text the
estimator's reply score is not `0.25` — the word `"thread"` in the text
matches the power-word list, adding the `+0.08` power-word bonus. -/
theorem end_to_end_reply_score_counterexample :
    score_tweet (analyze c6Text false 280) Action.reply_score ≠ 0.25 := by
  rw [c6_reply_eval]
  norm_num

/-- Claim C6 (amended): on the end-to-end example text feature extraction
yields language `"en"`, `has_hook`, `has_question`, `question_count = 1`,
and the estimator's reply score is `0.33` (base `0.10` + question bonus
`0.15` + power-word bonus `0.08`, the text containing the power word
`"thread"`; no CTA match and no list format). -/
theorem end_to_end_reply_score_amended :
    (analyze c6Text false 280).lang = "en" ∧
    (analyze c6Text false 280).has_hook = true ∧
    (analyze c6Text false 280).has_question = true ∧
    (analyze c6Text false 280).question_count = 1 ∧
    (analyze c6Text false 280).has_cta = false ∧
    (analyze c6Text false 280).has_list_format = false ∧
    score_tweet (analyze c6Text false 280) Action.reply_score = 0.33 := by
  refine ⟨by decide, by decide, by decide, by decide, by decide,
    by decide, ?_⟩
  rw [c6_reply_eval]
  norm_num

/-- Claim C7: validation of an externally supplied SignalVector warns
(rather than fails) about missing catalog ids — which are then defaulted
to `0.0` so computation proceeds — and warns about each non-numeric or
out-of-range value, while the comparison uses the supplied value as-is,
without clamping. -/
theorem external_vector_validation (variation : Variation) (mc : ℕ) :
    (∀ a : Action, scoresLookup (variation.scores.getD []) a = none →
      Warning.missingScores
          (ACTIONS.filter
            (fun x => (scoresLookup (variation.scores.getD []) x).isNone))
        ∈ validate_variation variation mc ∧
      scoresLookup (fillScores (variation.scores.getD [])) a
        = some (.num 0)) ∧
    (∀ (a : Action) (s : String),
      (a, PyVal.other s) ∈ variation.scores.getD [] →
        Warning.nonNumericScore a (.other s)
          ∈ validate_variation variation mc) ∧
    (∀ (a : Action) (q : ℚ), (a, PyVal.num q) ∈ variation.scores.getD [] →
      ¬(0 ≤ q ∧ q ≤ 1) →
        Warning.scoreOutOfRange a q ∈ validate_variation variation mc) ∧
    (∀ (analysis : Analysis) (vec : Action → ℚ) (hm : Bool) (a : Action),
      ((comparison_report analysis vec hm).delta a).optimized = vec a ∧
      ((comparison_report analysis vec hm).delta a).delta_pct
        = pyRound (rawDelta (score_tweet analysis a) (vec a)) 1) := by
  refine ⟨fun a ha => ?_, fun a s hmem => ?_, fun a q hmem hq => ?_,
    fun analysis vec hm a => ⟨rfl, rfl⟩⟩
  · have hmem : a ∈ ACTIONS.filter
        (fun x => (scoresLookup (variation.scores.getD []) x).isNone) :=
      List.mem_filter.mpr ⟨mem_ACTIONS a, by rw [ha]; rfl⟩
    have hne : (ACTIONS.filter
        (fun x => (scoresLookup (variation.scores.getD [])
          x).isNone)).isEmpty = false := by
      cases hfe : ACTIONS.filter
          (fun x => (scoresLookup (variation.scores.getD []) x).isNone) with
      | nil => rw [hfe] at hmem; cases hmem
      | cons _ _ => rfl
    constructor
    · simp only [validate_variation, hne]
      apply List.mem_append.mpr
      apply Or.inl
      apply List.mem_append.mpr
      apply Or.inr
      simp
    · simp only [fillScores]
      rw [scoresLookup_append_of_none _ _ _ ha]
      exact scoresLookup_map_const _ _ _ hmem
  · simp only [validate_variation]
    apply List.mem_append.mpr
    apply Or.inr
    exact List.mem_filterMap.mpr ⟨(a, .other s), hmem, rfl⟩
  · simp only [validate_variation]
    apply List.mem_append.mpr
    apply Or.inr
    refine List.mem_filterMap.mpr ⟨(a, .num q), hmem, ?_⟩
    simp only
    rw [if_pos hq]

/-- Witness for C7: a variation whose only score is the out-of-range
`favorite = 1.5` receives a `scoreOutOfRange` warning. -/
theorem external_vector_validation_witness :
    Warning.scoreOutOfRange Action.favorite_score 1.5 ∈
      validate_variation
        ⟨none, some [(Action.favorite_score, PyVal.num 1.5)]⟩ 280 :=
  (external_vector_validation _ 280).2.2.1 Action.favorite_score 1.5
    (by simp) (by norm_num)

/-- Counterexample for C8: invoked directly on empty text, the feature
extractor does not reject the input — it returns a fully populated
StructuralFeatures record (no error of any kind exists on this code
path). -/
theorem empty_text_record_counterexample :
    (analyze "" false 280).char_count = 0 ∧
    (analyze "" false 280).word_count = 0 ∧
    (analyze "" false 280).line_count = 0 ∧
    (analyze "" false 280).first_line = "" ∧
    (analyze "" false 280).lang = "en" ∧
    (analyze "" false 280).has_hook = true :=
  ⟨by decide, by decide, by decide, by decide, by decide, by decide⟩

/-- Claim C8 (amended): empty or whitespace-only text is tolerated but
not rejected — the extractor produces a fully populated
StructuralFeatures record (zero counts, empty first line) and reports no
error. -/
theorem empty_text_tolerated_amended :
    ((analyze "" false 280).char_count = 0 ∧
     (analyze "" false 280).char_utilization = 0 ∧
     (analyze "" false 280).word_count = 0 ∧
     (analyze "" false 280).hashtags = [] ∧
     (analyze "" false 280).power_words_found = []) ∧
    ((analyze "   " false 280).char_count = 3 ∧
     (analyze "   " false 280).char_utilization = 11/10 ∧
     (analyze "   " false 280).word_count = 0 ∧
     (analyze "   " false 280).line_count = 0 ∧
     (analyze "   " false 280).first_line = "") := by
  have hu0 : (analyze "" false 280).char_utilization
      = pyRound ((((0:ℕ)):ℚ) / (((280:ℕ)):ℚ) * 100) 1 := rfl
  have hu3 : (analyze "   " false 280).char_utilization
      = pyRound ((((3:ℕ)):ℚ) / (((280:ℕ)):ℚ) * 100) 1 := rfl
  refine ⟨⟨by decide, ?_, by decide, by decide, by decide⟩,
    by decide, ?_, by decide, by decide, by decide⟩
  · rw [hu0, show (((0:ℕ)):ℚ) / (((280:ℕ)):ℚ) * 100 = 0 from by norm_num]
    exact pyRound_zero 1
  · rw [hu3,
      show (((3:ℕ)):ℚ) / (((280:ℕ)):ℚ) * 100 = 15/14 from by norm_num]
    exact pyRound_eq_of_fract_gt _ _ _ 10 (by norm_num) (by norm_num)
      (by norm_num) (by norm_num)

/-- Claim C9: feature extraction is a pure function — two invocations
with identical text, media flag and configured maximum character count
return identical StructuralFeatures records. -/
theorem analyze_deterministic (t₁ t₂ : String) (m₁ m₂ : Bool)
    (c₁ c₂ : ℕ) (ht : t₁ = t₂) (hm : m₁ = m₂) (hc : c₁ = c₂) :
    analyze t₁ m₁ c₁ = analyze t₂ m₂ c₂ := by
  rw [ht, hm, hc]

/-- Witness for C9 at a concrete input. -/
theorem analyze_deterministic_witness :
    analyze "hello" false 280 = analyze "hello" false 280 :=
  analyze_deterministic "hello" "hello" false false 280 280 rfl rfl rfl

/-- Claim C10: the reported `delta_pct` is the true relative change
rounded to one decimal place while the direction label is computed from
the unrounded change; at `orig = 0.5`, `cand = 0.5001` on the
positive-polarity favorite signal the report shows `delta_pct = 0.0`
together with `direction = "improved"`. -/
theorem delta_rounding_vs_direction :
    (∀ (ov cv : Action → ℚ) (a : Action), ov a ≠ 0 →
      (compute_delta ov cv a).delta_pct
          = pyRound (((cv a - ov a) / ov a) * 100) 1 ∧
      ((compute_delta ov cv a).direction = "improved" ↔
        (if NEGATIVE_ACTIONS a then ((cv a - ov a) / ov a) * 100 < 0
         else 0 < ((cv a - ov a) / ov a) * 100))) ∧
    ((compute_delta (fun _ => 0.5) (fun _ => 0.5001)
        Action.favorite_score).delta_pct = 0 ∧
     (compute_delta (fun _ => 0.5) (fun _ => 0.5001)
        Action.favorite_score).direction = "improved" ∧
     (0:ℚ) < ((0.5001 - 0.5) / 0.5) * 100) := by
  have h1 : rawDelta (0.5:ℚ) 0.5001 = 1/50 := by
    simp only [rawDelta]
    norm_num
  refine ⟨fun ov cv a h => ⟨?_, ?_⟩, ?_, ?_, by norm_num⟩
  · simp only [compute_delta, rawDelta_of_ne_zero _ _ h]
  · show (if NEGATIVE_ACTIONS a then
        (if rawDelta (ov a) (cv a) < 0 then "improved" else "worse")
      else
        (if rawDelta (ov a) (cv a) > 0 then "improved" else "worse"))
          = "improved" ↔ _
    rw [rawDelta_of_ne_zero _ _ h]
    split_ifs
    all_goals first
      | exact iff_of_true rfl (by assumption)
      | exact iff_of_false (by decide) (by assumption)
  · simp only [compute_delta, h1]
    exact pyRound_eq_of_fract_lt _ _ _ 0 (by norm_num) (by norm_num)
      (by norm_num)
  · simp only [compute_delta, h1]
    norm_num [NEGATIVE_ACTIONS]

/-- Witness for C10, instantiating the general part at the concrete
`0.5 → 0.5001` pair. -/
theorem delta_rounding_vs_direction_witness :
    (compute_delta (fun _ => (0.5:ℚ)) (fun _ => 0.5001)
        Action.favorite_score).delta_pct
      = pyRound (((0.5001 - 0.5) / 0.5) * 100) 1 :=
  (delta_rounding_vs_direction.1 _ _ Action.favorite_score
    (by norm_num)).1

end XContent
